import Mathlib

/-!
Verification of the workflow orchestration engine and telemetry
buffering/replay subsystem of the image-enhancement pipeline
(`src/graph/workflow.py`, `src/graph/state.py`, `src/agents/*.py`).

The pipeline state, the router `_should_continue`, the instrumentation
wrapper `_observed`, the replayer `_replay_workflow_to_galileo`,
`flush_galileo` and `run_pipeline` are embedded as executable Lean
functions.  External collaborators (Pillow image transforms, MoviePy
rendering, the Galileo remote backend, wall-clock time) are modelled as
explicit parameters/oracles, exactly as the spec's §6 treats them:
black-box functions with a narrow contract.
-/

namespace TestGalileo

/-- Embedding of `ImagePipelineState` (src/graph/state.py).  Python ints
are modelled as `Int`; `quality_scores` (an externally produced dict of
floats) is carried as its serialized form, since no routing or telemetry
decision in the core reads inside it. -/
structure PState where
  image_path : String
  original_image_path : String
  quality_scores : String
  quality_passed : Bool
  enhancement_iteration : Int
  max_iterations : Int
  enhancement_log : List String
  video_output_path : String
  status : String
deriving Repr, DecidableEq

/-- A Python exception: its type name and message. -/
structure Exc where
  kind : String
  msg : String
deriving Repr, DecidableEq

/-- Embedding of `_StepRecord` (workflow.py lines 75-81). -/
structure StepRecord where
  node_name : String
  input_text : String
  output_text : String
  duration_ns : Nat
  status_code : Int
deriving Repr, DecidableEq

/-- Embedding of `_should_continue` (workflow.py lines 231-238): the
conditional-edge router.  The `.get` defaults never fire because every
field is populated in the typed state. -/
def shouldContinue (s : PState) : String :=
  if s.quality_passed then "generate_video"
  else if s.enhancement_iteration ≥ s.max_iterations then "generate_video"
  else "enhance"

/-- Embedding of `quality_check_agent` (src/agents/quality_check.py).
The Pillow scoring of the image is external (spec §6: assessment
collaborator), so the pass/fail outcome and the serialized score dict
are parameters; the node writes them into the state together with a
status string and leaves every other field — in particular
`enhancement_iteration` — untouched. -/
def quality_check_agent (passed : Bool) (scores : String) (s : PState) : PState :=
  { s with
    quality_scores := scores
    quality_passed := passed
    status := if passed then "Quality check passed" else "Quality check failed" }

/-- Embedding of `enhancement_agent` (src/agents/enhancement.py lines
27-81).  The Pillow transforms are external (spec §6: improvement
collaborator), so the produced output path and the list of applied
adjustments are parameters; the agent's own logic sets
`iteration := state.enhancement_iteration + 1`, moves `image_path` to
the new output, and appends one entry to the enhancement log. -/
def enhancement_agent (outPath : String) (applied : List String) (s : PState) : PState :=
  let iteration := s.enhancement_iteration + 1
  let joined := String.intercalate ", " applied
  { s with
    image_path := outPath
    enhancement_iteration := iteration
    enhancement_log :=
      s.enhancement_log ++ [s!"iteration {iteration}: {joined}"]
    status := s!"Enhanced image (iteration {iteration}): {joined}" }

/-- Embedding of `video_generation_agent` (src/agents/video_generation.py).
The MoviePy rendering is external (spec §6: finalization collaborator),
so the video output path is a parameter. -/
def video_generation_agent (videoPath : String) (s : PState) : PState :=
  { s with
    video_output_path := videoPath
    status := s!"Video generated at {videoPath}" }

/-- Serialization of the state for telemetry, embedding the
`json.dumps({k: v for k, v in state.items() if k != "enhancement_log"})`
calls of `_observed` and `run_pipeline`: every field except
`enhancement_log` is rendered. -/
def serializeState (s : PState) : String :=
  s!"\x7b\"image_path\": \"{s.image_path}\", \"original_image_path\": \"{s.original_image_path}\", \"quality_scores\": {s.quality_scores}, \"quality_passed\": {s.quality_passed}, \"enhancement_iteration\": {s.enhancement_iteration}, \"max_iterations\": {s.max_iterations}, \"video_output_path\": \"{s.video_output_path}\", \"status\": \"{s.status}\"\x7d"

/-- Embedding of the wrapper returned by `_observed` (workflow.py lines
197-226).  A node is a fallible function from state to (merged) state;
thread-local buffering is explicit state passing of the step list.
Durations come from wall-clock `time.time_ns()`, outside the embedding,
and are fixed at 0.  On success the wrapper appends one 200 record and
returns the node's result; on exception it appends one 500 record whose
output snapshot is `ERROR: <kind>: <message>` and re-raises the original
exception unchanged. -/
def observed (node_name : String) (fn : PState → Except Exc PState)
    (s : PState) (buf : List StepRecord) : Except Exc PState × List StepRecord :=
  let input_summary := serializeState s
  match fn s with
  | .error exc =>
      (.error exc,
       buf ++ [⟨node_name, input_summary, s!"ERROR: {exc.kind}: {exc.msg}", 0, 500⟩])
  | .ok result =>
      (.ok result, buf ++ [⟨node_name, input_summary, serializeState result, 0, 200⟩])

/-- The fixed edges registered in `build_workflow` (workflow.py lines
270-271): `enhance → quality_check` and `generate_video → END`. -/
def fixedEdges : List (String × String) :=
  [("enhance", "quality_check"), ("generate_video", "END")]

/-- The entry point set in `build_workflow` (workflow.py line 259). -/
def entryPoint : String := "quality_check"

/-- The exception LangGraph raises when the recursion limit is hit. -/
def recursionError : Exc := ⟨"GraphRecursionError", "recursion limit reached"⟩

/-- Executor for the compiled graph of `build_workflow` (workflow.py
lines 243-273): from the entry point `quality_check`, follow the
conditional edge chosen by `_should_continue` — `enhance` loops back to
`quality_check`, `generate_video` ends the run.  Nodes are invoked
through the `_observed` instrumentation wrapper; a raising node
propagates its exception and stops the run.  `fuel` plays the role of
LangGraph's recursion limit: exhausting it raises a recursion error. -/
def runGraph (nq ne nv : PState → Except Exc PState) :
    Nat → PState → List StepRecord →
    Except Exc PState × List StepRecord × List PState
  | 0, _, buf => (.error recursionError, buf, [])
  | fuel + 1, s, buf =>
    match observed "quality_check" nq s buf with
    | (.error e, buf1) => (.error e, buf1, [s])
    | (.ok s1, buf1) =>
      if shouldContinue s1 = "enhance" then
        match observed "enhance" ne s1 buf1 with
        | (.error e, buf2) => (.error e, buf2, [s, s1])
        | (.ok s2, buf2) =>
            let rest := runGraph nq ne nv fuel s2 buf2
            (rest.1, rest.2.1, s :: s1 :: rest.2.2)
      else
        match observed "generate_video" nv s1 buf1 with
        | (.error e, buf2) => (.error e, buf2, [s, s1])
        | (.ok s3, buf2) => (.ok s3, buf2, [s, s1, s3])

/-- One remote transmission to the Galileo backend, as described by the
telemetry backend contract (spec §6) and issued by
`_replay_workflow_to_galileo`: `add_agent_workflow` (begin),
`add_tool_step` (one per buffered record) and `conclude_workflow`. -/
inductive GEvent where
  | beginWf (input name : String) (has_errors : Bool) (workflow_status : Int)
  | toolStep (input output name : String) (duration_ns : Nat) (status_code : Int)
  | concludeWf (output : String) (duration_ns : Nat) (status_code : Int)
deriving Repr, DecidableEq

/-- `has_errors = any(s.status_code >= 400 for s in steps)`
(workflow.py line 128). -/
def hasErrors (steps : List StepRecord) : Bool :=
  steps.any (fun s => s.status_code ≥ 400)

/-- `wf_code = workflow_status_code if workflow_status_code >= 400 else
(500 if has_errors else 200)` (workflow.py line 129). -/
def wfCode (workflow_status_code : Int) (steps : List StepRecord) : Int :=
  if workflow_status_code ≥ 400 then workflow_status_code
  else if hasErrors steps then 500 else 200

/-- The full ordered sequence of remote calls one replay issues inside
its locked `try` block (workflow.py lines 131-161): begin-workflow, one
add-step per buffered record in original order, conclude-workflow. -/
def replayCallList (input_summary output_summary : String)
    (total_duration_ns : Nat) (workflow_status_code : Int)
    (steps : List StepRecord) : List GEvent :=
  [.beginWf input_summary "image-enhancement-pipeline"
      (hasErrors steps) (wfCode workflow_status_code steps)]
  ++ steps.map (fun st =>
       .toolStep st.input_text st.output_text st.node_name st.duration_ns st.status_code)
  ++ [.concludeWf output_summary total_duration_ns (wfCode workflow_status_code steps)]

/-- Fallibility of the remote backend: `oracle k` tells whether the
`k`-th remote call of this replay succeeds; a raising call transmits
nothing, and — since the whole sequence sits in one `try` — no later
call of the sequence is attempted.  What the backend receives is
therefore the longest all-successful prefix of the call list. -/
def sentPrefix (oracle : Nat → Bool) : List GEvent → Nat → List GEvent
  | [], _ => []
  | c :: rest, k => if oracle k then c :: sentPrefix oracle rest (k + 1) else []

/-- Embedding of `_replay_workflow_to_galileo` (workflow.py lines
110-169).  `client` is the `_init_galileo()` singleton (`none` when
galileo-observe is missing/unconfigured).  The thread-local buffer is
the explicit `steps` argument; the result is (events received by the
backend, buffer contents after the call).  When the client is absent the
function returns early (line 124-125), transmitting nothing and leaving
the buffer untouched; otherwise the three-phase call sequence runs
inside one locked `try`, any exception is caught (line 165), and
`steps.clear()` (line 169) runs unconditionally afterwards. -/
def replayWorkflowToGalileo (client : Option Unit) (oracle : Nat → Bool)
    (steps : List StepRecord) (input_summary output_summary : String)
    (total_duration_ns : Nat) (workflow_status_code : Int) :
    List GEvent × List StepRecord :=
  match client with
  | none => ([], steps)
  | some _ =>
      (sentPrefix oracle
        (replayCallList input_summary output_summary total_duration_ns
          workflow_status_code steps) 0,
       [])

/-- Embedding of `flush_galileo` (workflow.py lines 172-186).
`uploadRes` is the outcome of the remote `ow.upload_workflows()` call
(the list of uploaded workflows, or an exception).  The second component
records which remote calls were attempted.  Both the `ow is None` early
return and the `except` branch yield 0; no exception escapes because
every branch of the source returns. -/
def flushGalileo (client : Option Unit) (uploadRes : Except Exc (List Unit)) :
    Nat × List String :=
  match client with
  | none => (0, [])
  | some _ =>
      match uploadRes with
      | .ok results => (results.length, ["upload_workflows"])
      | .error _ => (0, ["upload_workflows"])

/-- The status string `run_pipeline` installs when the graph raises
(workflow.py line 312). -/
def pipelineErrorStatus (e : Exc) : String :=
  s!"PIPELINE_ERROR: {e.kind}: {e.msg}"

/-- Everything a `run_pipeline` call produces that the claims observe. -/
structure RunOutcome where
  result : Except Exc PState
  events : List GEvent
  buffer : List StepRecord
  uploaded : Nat
deriving Repr

/-- `_get_step_buffer().clear()` (workflow.py line 296): the in-place
`list.clear` empties the thread's buffer whatever it held. -/
def clearBuffer (_leftover : List StepRecord) : List StepRecord := []

/-- Embedding of `run_pipeline` (workflow.py lines 276-333).  `leftover`
is whatever the calling thread's step buffer held before the call; it is
cleared first (line 296).  The graph is invoked; an exception is caught,
the returned state becomes a copy of the initial state whose status is
tagged `PIPELINE_ERROR: <kind>: <message>` (lines 309-312), and the
workflow status override becomes 500 (line 321).  The collected steps
are then replayed atomically, `flush_galileo` runs unless deferred, and
finally the caught exception is re-raised when `raise_on_error` is
set. -/
def runPipeline (nq ne nv : PState → Except Exc PState) (fuel : Nat)
    (client : Option Unit) (oracle : Nat → Bool)
    (uploadRes : Except Exc (List Unit))
    (leftover : List StepRecord) (initial_state : PState)
    (defer_upload raise_on_error : Bool) : RunOutcome :=
  let buf0 := clearBuffer leftover
  let input_summary := serializeState initial_state
  let res := (runGraph nq ne nv fuel initial_state buf0).1
  let buf1 := (runGraph nq ne nv fuel initial_state buf0).2.1
  let finalState :=
    match res with
    | .ok f => f
    | .error e => { initial_state with status := pipelineErrorStatus e }
  let wf_status : Int := match res with | .ok _ => 200 | .error _ => 500
  let output_summary := serializeState finalState
  let (events, buf2) :=
    replayWorkflowToGalileo client oracle buf1 input_summary output_summary 0 wf_status
  let uploaded := if defer_upload then 0 else (flushGalileo client uploadRes).1
  let result : Except Exc PState :=
    match res with
    | .ok f => .ok f
    | .error e => if raise_on_error then .error e else .ok finalState
  ⟨result, events, buf2, uploaded⟩

/-- The `quality_check` node as registered by `build_workflow` when the
external Pillow scoring never raises: the pass/fail outcome and the
serialized score dict may depend arbitrarily on the current state (the
assessment collaborator is a deterministic function of the artifact,
spec §6). -/
def pureQualityNode (assess : PState → Bool) (scores : PState → String) :
    PState → Except Exc PState :=
  fun s => .ok (quality_check_agent (assess s) (scores s) s)

/-- The `enhance` node as registered by `build_workflow` when the
external Pillow transforms never raise. -/
def pureEnhanceNode (outPath : PState → String) (applied : PState → List String) :
    PState → Except Exc PState :=
  fun s => .ok (enhancement_agent (outPath s) (applied s) s)

/-- The `generate_video` node as registered by `build_workflow` when the
external MoviePy rendering never raises. -/
def pureVideoNode (videoPath : PState → String) : PState → Except Exc PState :=
  fun s => .ok (video_generation_agent (videoPath s) s)

/-- Is this remote transmission a `conclude_workflow` call?  Only
concluded workflows are visible as completed-workflow records in the
backend (spec §8: begin-without-conclude is treated as absent). -/
def isConcludeEvent : GEvent → Bool
  | .concludeWf _ _ _ => true
  | _ => false

/-- Number of completed-workflow records the backend can see among the
received transmissions. -/
def concludedCount (events : List GEvent) : Nat :=
  events.countP isConcludeEvent

/-- How many buffered step records carry a given node name. -/
def countRecords (name : String) (buf : List StepRecord) : Nat :=
  buf.countP (fun r => r.node_name = name)

/-- A concrete pipeline state used to instantiate universally quantified
theorems. -/
def sampleState : PState :=
  { image_path := "input.png"
    original_image_path := "input.png"
    quality_scores := "\x7b\x7d"
    quality_passed := false
    enhancement_iteration := 0
    max_iterations := 3
    enhancement_log := []
    video_output_path := ""
    status := "started" }

/-- A concrete step record used to instantiate universally quantified
theorems. -/
def sampleRecord : StepRecord :=
  ⟨"quality_check", "in", "out", 0, 200⟩

/-- The router chooses `generate_video` exactly when the pass flag is
set or the iteration count has reached the limit. -/
lemma shouldContinue_generate_video_iff (s : PState) :
    shouldContinue s = "generate_video" ↔
      (s.quality_passed = true ∨ s.max_iterations ≤ s.enhancement_iteration) := by
  unfold shouldContinue
  by_cases hp : s.quality_passed = true
  · simp [hp]
  · by_cases hi : s.enhancement_iteration ≥ s.max_iterations
    · simp [hp, hi]
    · simp [hp, hi]

/-- The router chooses `enhance` exactly when the pass flag is unset and
the iteration count is still below the limit. -/
lemma shouldContinue_enhance_iff (s : PState) :
    shouldContinue s = "enhance" ↔
      (s.quality_passed = false ∧ s.enhancement_iteration < s.max_iterations) := by
  unfold shouldContinue
  by_cases hp : s.quality_passed = true
  · simp [hp]
  · by_cases hi : s.enhancement_iteration ≥ s.max_iterations
    · simp [hp, hi]
    · simp [hp, hi]
      omega

/-- What the backend receives is always an initial segment of the
intended call sequence: a raising call transmits nothing and aborts the
rest. -/
lemma sentPrefix_isPrefix (oracle : Nat → Bool) :
    ∀ (l : List GEvent) (k : Nat), sentPrefix oracle l k <+: l := by
  intro l
  induction l with
  | nil => intro k; simp [sentPrefix]
  | cons c rest ih =>
      intro k
      unfold sentPrefix
      cases h : oracle k
      · simp [h]
      · simp only [if_true]
        exact List.cons_prefix_cons.mpr ⟨rfl, ih (k + 1)⟩

/-- If every remote call of the sequence succeeds, the whole sequence
reaches the backend. -/
lemma sentPrefix_eq_self (oracle : Nat → Bool) :
    ∀ (l : List GEvent) (k : Nat),
      (∀ j, j < l.length → oracle (k + j) = true) → sentPrefix oracle l k = l := by
  intro l
  induction l with
  | nil => intro k _; rfl
  | cons c rest ih =>
      intro k h
      have h0 : oracle k = true := by simpa using h 0 (by simp)
      have hrest : sentPrefix oracle rest (k + 1) = rest := by
        refine ih (k + 1) (fun j hj => ?_)
        have := h (j + 1) (by simpa using Nat.succ_lt_succ hj)
        simpa [Nat.add_assoc, Nat.add_comm 1 j] using this
      simp [sentPrefix, h0, hrest]

/-- If some call of the sequence raises, the backend does not receive
the whole sequence. -/
lemma sentPrefix_ne_of_false (oracle : Nat → Bool) :
    ∀ (l : List GEvent) (k j : Nat), j < l.length → oracle (k + j) = false →
      sentPrefix oracle l k ≠ l := by
  intro l
  induction l with
  | nil => intro k j hj _; simp at hj
  | cons c rest ih =>
      intro k j hj hfalse
      unfold sentPrefix
      cases h : oracle k
      · simp
      · simp only [if_true]
        intro heq
        have htail : sentPrefix oracle rest (k + 1) = rest := (List.cons.inj heq).2
        rcases j with _ | j'
        · rw [Nat.add_zero] at hfalse
          rw [hfalse] at h
          exact Bool.false_ne_true h
        · have hj' : j' < rest.length := by simpa using Nat.lt_of_succ_lt_succ hj
          have hfalse' : oracle (k + 1 + j') = false := by
            simpa [Nat.add_assoc, Nat.add_comm 1 j'] using hfalse
          exact ih (k + 1) j' hj' hfalse' htail

/-- The received transmissions are either the full call sequence or a
prefix of it that misses at least the final call. -/
lemma sentPrefix_eq_or_prefix_dropLast (oracle : Nat → Bool) :
    ∀ (l : List GEvent) (k : Nat),
      sentPrefix oracle l k = l ∨ sentPrefix oracle l k <+: l.dropLast := by
  intro l
  induction l with
  | nil => intro k; left; rfl
  | cons c rest ih =>
      intro k
      unfold sentPrefix
      cases h : oracle k
      · right; simp
      · simp only [if_true]
        rcases ih (k + 1) with heq | hpre
        · left; rw [heq]
        · rcases rest with _ | ⟨b, rest'⟩
          · left; simp [sentPrefix]
          · right
            have : c :: sentPrefix oracle (b :: rest') (k + 1) <+:
                c :: (b :: rest').dropLast :=
              List.cons_prefix_cons.mpr ⟨rfl, hpre⟩
            simpa [List.dropLast] using this

/-- The call sequence of one replay holds no `conclude_workflow` before
its final element. -/
lemma concludedCount_dropLast_calls (inp outp : String) (dur : Nat)
    (override : Int) (steps : List StepRecord) :
    concludedCount (replayCallList inp outp dur override steps).dropLast = 0 := by
  have hshape : replayCallList inp outp dur override steps =
      (.beginWf inp "image-enhancement-pipeline" (hasErrors steps)
          (wfCode override steps) ::
        steps.map (fun st =>
          .toolStep st.input_text st.output_text st.node_name st.duration_ns
            st.status_code)) ++
      [.concludeWf outp dur (wfCode override steps)] := by
    simp [replayCallList]
  rw [hshape, List.dropLast_concat]
  simp [concludedCount, List.countP_cons, isConcludeEvent, List.countP_map,
    Function.comp, List.countP_eq_zero]

/-- Invariant of the orchestration loop with non-raising nodes: if the
iteration count starts within `[0, max_iterations]`, then every state
the executor passes to a node, and any successfully returned final
state, stays within those bounds (the agents never change
`max_iterations`, the router only releases control to `enhance` below
the limit, and `enhance` increments by exactly one). -/
lemma runGraph_pure_bounds (assess : PState → Bool)
    (scores outP vidP : PState → String) (applied : PState → List String) :
    ∀ (fuel : Nat) (s : PState) (buf : List StepRecord),
      0 ≤ s.enhancement_iteration → s.enhancement_iteration ≤ s.max_iterations →
      (∀ t ∈ (runGraph (pureQualityNode assess scores) (pureEnhanceNode outP applied)
          (pureVideoNode vidP) fuel s buf).2.2,
        0 ≤ t.enhancement_iteration ∧ t.enhancement_iteration ≤ s.max_iterations) ∧
      (∀ f, (runGraph (pureQualityNode assess scores) (pureEnhanceNode outP applied)
          (pureVideoNode vidP) fuel s buf).1 = .ok f →
        0 ≤ f.enhancement_iteration ∧ f.enhancement_iteration ≤ s.max_iterations ∧
        f.max_iterations = s.max_iterations) := by
  intro fuel
  induction fuel with
  | zero =>
      intro s buf _ _
      constructor
      · intro t ht
        simp [runGraph] at ht
      · intro f hf
        simp [runGraph, recursionError] at hf
  | succ n ih =>
      intro s buf h0 h1
      by_cases hroute :
          shouldContinue (quality_check_agent (assess s) (scores s) s) = "enhance"
      · have hlt := ((shouldContinue_enhance_iff _).mp hroute).2
        have hlt' : s.enhancement_iteration < s.max_iterations := by
          simpa [quality_check_agent] using hlt
        have h0' : (0 : Int) ≤ s.enhancement_iteration + 1 := by omega
        have h1' : s.enhancement_iteration + 1 ≤ s.max_iterations := by omega
        have ih' := ih
          (enhancement_agent (outP (quality_check_agent (assess s) (scores s) s))
            (applied (quality_check_agent (assess s) (scores s) s))
            (quality_check_agent (assess s) (scores s) s))
          (buf ++ [⟨"quality_check", serializeState s,
              serializeState (quality_check_agent (assess s) (scores s) s), 0, 200⟩]
            ++ [⟨"enhance",
              serializeState (quality_check_agent (assess s) (scores s) s),
              serializeState
                (enhancement_agent
                  (outP (quality_check_agent (assess s) (scores s) s))
                  (applied (quality_check_agent (assess s) (scores s) s))
                  (quality_check_agent (assess s) (scores s) s)), 0, 200⟩])
          (by simpa [enhancement_agent, quality_check_agent] using h0')
          (by simpa [enhancement_agent, quality_check_agent] using h1')
        rw [show (enhancement_agent
              (outP (quality_check_agent (assess s) (scores s) s))
              (applied (quality_check_agent (assess s) (scores s) s))
              (quality_check_agent (assess s) (scores s) s)).max_iterations =
            s.max_iterations from rfl] at ih'
        constructor
        · intro t ht
          simp only [runGraph, observed, pureQualityNode, pureEnhanceNode,
            hroute, if_true, List.mem_cons] at ht
          rcases ht with rfl | ht
          · exact ⟨h0, h1⟩
          rcases ht with rfl | ht
          · exact ⟨by simpa [quality_check_agent] using h0,
              by simpa [quality_check_agent] using h1⟩
          · exact ih'.1 t ht
        · intro f hf
          simp only [runGraph, observed, pureQualityNode, pureEnhanceNode,
            hroute, if_true] at hf
          exact ih'.2 f hf
      · constructor
        · intro t ht
          simp only [runGraph, observed, pureQualityNode, pureVideoNode,
            hroute, if_false, List.mem_cons] at ht
          rcases ht with rfl | ht
          · exact ⟨h0, h1⟩
          rcases ht with rfl | ht
          · exact ⟨by simpa [quality_check_agent] using h0,
              by simpa [quality_check_agent] using h1⟩
          rcases ht with rfl | ht
          · exact ⟨by simpa [video_generation_agent, quality_check_agent] using h0,
              by simpa [video_generation_agent, quality_check_agent] using h1⟩
          · simp at ht
        · intro f hf
          simp only [runGraph, observed, pureQualityNode, pureVideoNode,
            hroute, if_false, Prod.mk.injEq] at hf
          have hfe := (Except.ok.inj hf).symm
          subst hfe
          exact ⟨by simpa [video_generation_agent, quality_check_agent] using h0,
            by simpa [video_generation_agent, quality_check_agent] using h1, rfl⟩

/-- C1: for every run started with `enhancement_iteration = 0` and
`max_iterations = L ≥ 0`, every state handed to a node during the run
and any final state satisfy `0 ≤ enhancement_iteration ≤ L`; moreover
the router releases control to `enhance` only strictly below the limit,
and the enhance node increments the count by exactly 1. -/
theorem C1_iteration_bounds :
    ∀ (assess : PState → Bool) (scores outP vidP : PState → String)
      (applied : PState → List String) (fuel : Nat) (s0 : PState)
      (buf : List StepRecord),
      s0.enhancement_iteration = 0 → 0 ≤ s0.max_iterations →
      ((∀ t ∈ (runGraph (pureQualityNode assess scores)
            (pureEnhanceNode outP applied) (pureVideoNode vidP) fuel s0 buf).2.2,
          0 ≤ t.enhancement_iteration ∧
          t.enhancement_iteration ≤ s0.max_iterations) ∧
       (∀ f, (runGraph (pureQualityNode assess scores)
            (pureEnhanceNode outP applied) (pureVideoNode vidP) fuel s0 buf).1 =
              .ok f →
          0 ≤ f.enhancement_iteration ∧
          f.enhancement_iteration ≤ s0.max_iterations)) ∧
      (∀ s : PState, shouldContinue s = "enhance" →
        s.enhancement_iteration < s.max_iterations) ∧
      (∀ (oP : String) (ap : List String) (s : PState),
        (enhancement_agent oP ap s).enhancement_iteration =
          s.enhancement_iteration + 1) := by
  intro assess scores outP vidP applied fuel s0 buf hinit hL
  have h := runGraph_pure_bounds assess scores outP vidP applied fuel s0 buf
    (by omega) (by omega)
  exact ⟨⟨h.1, fun f hf => ⟨(h.2 f hf).1, (h.2 f hf).2.1⟩⟩,
    fun s hs => ((shouldContinue_enhance_iff s).mp hs).2,
    fun _ _ _ => rfl⟩

/-- Witness for C1: a concrete never-passing run with limit 3 and fuel
25; every state in the trace keeps its iteration count within [0, 3]. -/
theorem C1_iteration_bounds_witness :
    sampleState.enhancement_iteration = 0 ∧ (0 : Int) ≤ sampleState.max_iterations ∧
    ∀ t ∈ (runGraph (pureQualityNode (fun _ => false) (fun _ => "sc"))
        (pureEnhanceNode (fun _ => "op") (fun _ => []))
        (pureVideoNode (fun _ => "vp")) 25 sampleState []).2.2,
      0 ≤ t.enhancement_iteration ∧
      t.enhancement_iteration ≤ sampleState.max_iterations :=
  ⟨rfl, by decide,
   ((C1_iteration_bounds (fun _ => false) (fun _ => "sc") (fun _ => "op")
      (fun _ => "vp") (fun _ => []) 25 sampleState [] rfl (by decide)).1).1⟩

/-- C4: a run whose assessment never sets the pass flag, started with
`enhancement_iteration = 0` and `max_iterations = 3`, invokes exactly
4 `quality_check` steps, 3 `enhance` steps and 1 `generate_video` step,
and ends successfully in a state with the pass flag still false and
`enhancement_iteration = 3 = max_iterations` (the forced-exit branch of
the router is what released it to `generate_video`). -/
theorem C4_never_pass_run :
    ∀ (assess : PState → Bool) (scores outP vidP : PState → String)
      (applied : PState → List String) (s0 : PState),
      (∀ s, assess s = false) →
      s0.enhancement_iteration = 0 → s0.max_iterations = 3 →
      countRecords "quality_check"
        (runGraph (pureQualityNode assess scores) (pureEnhanceNode outP applied)
          (pureVideoNode vidP) 25 s0 []).2.1 = 4 ∧
      countRecords "enhance"
        (runGraph (pureQualityNode assess scores) (pureEnhanceNode outP applied)
          (pureVideoNode vidP) 25 s0 []).2.1 = 3 ∧
      countRecords "generate_video"
        (runGraph (pureQualityNode assess scores) (pureEnhanceNode outP applied)
          (pureVideoNode vidP) 25 s0 []).2.1 = 1 ∧
      (∃ f, (runGraph (pureQualityNode assess scores) (pureEnhanceNode outP applied)
          (pureVideoNode vidP) 25 s0 []).1 = .ok f ∧
        f.quality_passed = false ∧ f.enhancement_iteration = 3 ∧
        f.max_iterations = 3) := by
  intro assess scores outP vidP applied s0 hnever h0 h3
  simp [runGraph, observed, pureQualityNode, pureEnhanceNode, pureVideoNode,
    quality_check_agent, enhancement_agent, video_generation_agent,
    shouldContinue, countRecords, hnever, h0, h3]

/-- Witness for C4: the concrete never-passing run at the sample state
(iteration 0, limit 3) records exactly four quality-check steps. -/
theorem C4_never_pass_run_witness :
    countRecords "quality_check"
      (runGraph (pureQualityNode (fun _ => false) (fun _ => "sc"))
        (pureEnhanceNode (fun _ => "op") (fun _ => []))
        (pureVideoNode (fun _ => "vp")) 25 sampleState []).2.1 = 4 :=
  (C4_never_pass_run (fun _ => false) (fun _ => "sc") (fun _ => "op")
    (fun _ => "vp") (fun _ => []) sampleState (fun _ => rfl) rfl rfl).1

/-- The status string installed on a caught pipeline error starts with
the `PIPELINE_ERROR` tag. -/
lemma pipelineErrorStatus_eq (e : Exc) :
    pipelineErrorStatus e = "PIPELINE_ERROR: " ++ (e.kind ++ (": " ++ e.msg)) := by
  simp [pipelineErrorStatus, String.append_assoc, toString, String.append_empty]

/-- When the graph run fails with a node exception (anything but the
fuel-exhaustion error, which appends no record), the last collected
record is the failing step's 500 record: instrumentation stops at the
failing stage and no later stage is recorded. -/
lemma runGraph_error_last_record (nq ne nv : PState → Except Exc PState) :
    ∀ (fuel : Nat) (s : PState) (buf : List StepRecord) (e : Exc),
      (runGraph nq ne nv fuel s buf).1 = .error e →
      e ≠ recursionError →
      ((runGraph nq ne nv fuel s buf).2.1).getLast?.map
        (fun r => r.status_code) = some 500 := by
  intro fuel
  induction fuel with
  | zero =>
      intro s buf e he hne
      simp only [runGraph, Except.error.injEq] at he
      exact absurd he.symm hne
  | succ n ih =>
      intro s buf e he hne
      cases hq : nq s with
      | error eq =>
          simp only [runGraph, observed, hq] at he ⊢
          simp [List.getLast?_concat]
      | ok s1 =>
          by_cases hroute : shouldContinue s1 = "enhance"
          · cases hen : ne s1 with
            | error ee =>
                simp only [runGraph, observed, hq, hroute, if_true, hen] at he ⊢
                simp [List.getLast?_concat]
            | ok s2 =>
                simp only [runGraph, observed, hq, hroute, if_true, hen] at he ⊢
                exact ih s2 _ e he hne
          · cases hv : nv s1 with
            | error ev =>
                simp only [runGraph, observed, hq, hroute, if_false, hv] at he ⊢
                simp [List.getLast?_concat]
            | ok s3 =>
                simp only [runGraph, observed, hq, hroute, if_false, hv] at he
                exact absurd he (by simp)

/-- C8: when a stage raises during `run_pipeline`, with
`raise_on_error = false` no exception propagates and the caller receives
the initial state tagged `PIPELINE_ERROR: <kind>: <message>`; with
`raise_on_error = true` the very same exception is re-raised; in both
modes telemetry replay still takes place with the pipeline-failure
override 500; and (for a node failure, as opposed to fuel exhaustion)
the failing step's 500 record is the last one collected — no further
stage ran. -/
theorem C8_pipeline_error_surfacing :
    ∀ (nq ne nv : PState → Except Exc PState) (fuel : Nat)
      (client : Option Unit) (oracle : Nat → Bool)
      (uploadRes : Except Exc (List Unit)) (leftover : List StepRecord)
      (s0 : PState) (defer_upload : Bool) (e : Exc),
      (runGraph nq ne nv fuel s0 []).1 = .error e →
      ((runPipeline nq ne nv fuel client oracle uploadRes leftover s0
          defer_upload false).result =
            .ok { s0 with status := pipelineErrorStatus e } ∧
        pipelineErrorStatus e = "PIPELINE_ERROR: " ++ (e.kind ++ (": " ++ e.msg))) ∧
      (runPipeline nq ne nv fuel client oracle uploadRes leftover s0
          defer_upload true).result = .error e ∧
      (∀ b : Bool,
        (runPipeline nq ne nv fuel client oracle uploadRes leftover s0
            defer_upload b).events =
          (replayWorkflowToGalileo client oracle
            (runGraph nq ne nv fuel s0 []).2.1 (serializeState s0)
            (serializeState { s0 with status := pipelineErrorStatus e })
            0 500).1) ∧
      (e ≠ recursionError →
        ((runGraph nq ne nv fuel s0 []).2.1).getLast?.map
          (fun r => r.status_code) = some 500) := by
  intro nq ne nv fuel client oracle uploadRes leftover s0 defer_upload e hres
  refine ⟨⟨?_, pipelineErrorStatus_eq e⟩, ?_, ?_, ?_⟩
  · simp [runPipeline, clearBuffer, hres]
  · simp [runPipeline, clearBuffer, hres]
  · intro b
    simp [runPipeline, clearBuffer, hres]
  · exact runGraph_error_last_record nq ne nv fuel s0 [] e hres

/-- Witness for C8: the quality-check node raises `ValueError: bad
input` on a malformed artifact; with `raise_on_error = false` the
pipeline returns the tagged state instead of raising. -/
theorem C8_pipeline_error_surfacing_witness :
    (runPipeline (fun _ => .error ⟨"ValueError", "bad input"⟩)
      (fun s => .ok s) (fun s => .ok s) 25 none (fun _ => true)
      (.ok []) [] sampleState false false).result =
      .ok { sampleState with
              status := pipelineErrorStatus ⟨"ValueError", "bad input"⟩ } :=
  ((C8_pipeline_error_surfacing (fun _ => .error ⟨"ValueError", "bad input"⟩)
    (fun s => .ok s) (fun s => .ok s) 25 none (fun _ => true)
    (.ok []) [] sampleState false ⟨"ValueError", "bad input"⟩ rfl).1).1

/-- C2: replay is all-or-nothing.  If every remote call succeeds, the
backend receives exactly begin-workflow, every buffered step in order,
and conclude-workflow; if any call raises partway through, zero
completed-workflow records (conclude-workflow transmissions) are visible
for the run; and conversely a visible completed-workflow record implies
the full sequence was received.  (Per spec §8, a begin-workflow without
its conclude-workflow is treated as absent by the backend, so
"visible" means "concluded".) -/
theorem C2_replay_all_or_nothing :
    ∀ (oracle : Nat → Bool) (steps : List StepRecord)
      (inp outp : String) (dur : Nat) (override : Int),
      ((∀ k, k < (replayCallList inp outp dur override steps).length →
          oracle k = true) →
        (replayWorkflowToGalileo (some ()) oracle steps inp outp dur override).1 =
          replayCallList inp outp dur override steps) ∧
      ((∃ k, k < (replayCallList inp outp dur override steps).length ∧
          oracle k = false) →
        concludedCount
          (replayWorkflowToGalileo (some ()) oracle steps inp outp dur override).1 = 0) ∧
      (concludedCount
          (replayWorkflowToGalileo (some ()) oracle steps inp outp dur override).1 ≠ 0 →
        (replayWorkflowToGalileo (some ()) oracle steps inp outp dur override).1 =
          replayCallList inp outp dur override steps) := by
  intro oracle steps inp outp dur override
  have hzero_of_ne :
      sentPrefix oracle (replayCallList inp outp dur override steps) 0 ≠
          replayCallList inp outp dur override steps →
        concludedCount (sentPrefix oracle (replayCallList inp outp dur override steps) 0) = 0 := by
    intro hne
    rcases sentPrefix_eq_or_prefix_dropLast oracle
        (replayCallList inp outp dur override steps) 0 with heq | hpre
    · exact absurd heq hne
    · have hle := (hpre.sublist).countP_le isConcludeEvent
      have hdrop := concludedCount_dropLast_calls inp outp dur override steps
      unfold concludedCount at hdrop ⊢
      omega
  refine ⟨?_, ?_, ?_⟩
  · intro h
    show sentPrefix oracle (replayCallList inp outp dur override steps) 0 = _
    exact sentPrefix_eq_self oracle _ 0 (fun j hj => by simpa using h j hj)
  · rintro ⟨k, hk, hfalse⟩
    have hne := sentPrefix_ne_of_false oracle
      (replayCallList inp outp dur override steps) 0 k (by simpa using hk)
      (by simpa using hfalse)
    exact hzero_of_ne hne
  · intro hconc
    by_contra hne
    exact hconc (hzero_of_ne hne)

/-- Witness for C2: with a backend that never raises and one buffered
record, the full three-phase sequence reaches the backend. -/
theorem C2_replay_all_or_nothing_witness :
    (replayWorkflowToGalileo (some ()) (fun _ => true) [sampleRecord] "in" "out" 0 200).1 =
      replayCallList "in" "out" 0 200 [sampleRecord] :=
  (C2_replay_all_or_nothing (fun _ => true) [sampleRecord] "in" "out" 0 200).1
    (fun _ _ => rfl)

/-- C5 counterexample: a replay invoked with
`workflow_status_code = 404` — a value that "signals a pipeline-level
failure (is >= 400)" in the claim's words — transmits 404, not 500, as
the aggregate status at conclude (workflow.py line 129 forwards the
override verbatim instead of collapsing it to 500); 404 < 500, so the
transmitted code is not the 500 the claim requires. -/
theorem C5_counterexample :
    (404 : Int) ≥ 400 ∧
    (replayWorkflowToGalileo (some ()) (fun _ => true) [] "in" "out" 0 404).1.getLast? =
      some (.concludeWf "out" 0 404) ∧
    (404 : Int) < 500 := by decide

/-- C5 as amended: the aggregate status transmitted at conclude is the
`workflowStatusOverride` value itself whenever it is ≥ 400 (every caller
in this repository passes exactly 500 for a pipeline-level failure, so
the transmitted code is 500 there), else 500 if any buffered step has
status ≥ 400, else 200; and the begin-workflow metadata has-errors flag
is true exactly when some buffered step has status ≥ 400. -/
theorem C5_amended_aggregate_status :
    ∀ (oracle : Nat → Bool) (steps : List StepRecord) (inp outp : String)
      (dur : Nat) (override : Int),
      ((∀ k, oracle k = true) →
        (replayWorkflowToGalileo (some ()) oracle steps inp outp dur override).1.getLast? =
          some (.concludeWf outp dur (wfCode override steps)) ∧
        (replayWorkflowToGalileo (some ()) oracle steps inp outp dur override).1.head? =
          some (.beginWf inp "image-enhancement-pipeline" (hasErrors steps)
            (wfCode override steps))) ∧
      (override ≥ 400 → wfCode override steps = override) ∧
      (override < 400 → hasErrors steps = true → wfCode override steps = 500) ∧
      (override < 400 → hasErrors steps = false → wfCode override steps = 200) ∧
      (hasErrors steps = true ↔ ∃ st ∈ steps, st.status_code ≥ 400) := by
  intro oracle steps inp outp dur override
  refine ⟨?_, ?_, ?_, ?_, ?_⟩
  · intro hall
    have hfull :
        (replayWorkflowToGalileo (some ()) oracle steps inp outp dur override).1 =
          replayCallList inp outp dur override steps :=
      sentPrefix_eq_self oracle _ 0 (fun j _ => by simpa using hall j)
    rw [hfull]
    constructor
    · have hshape : replayCallList inp outp dur override steps =
          (.beginWf inp "image-enhancement-pipeline" (hasErrors steps)
              (wfCode override steps) ::
            steps.map (fun st =>
              .toolStep st.input_text st.output_text st.node_name st.duration_ns
                st.status_code)) ++
          [.concludeWf outp dur (wfCode override steps)] := by
        simp [replayCallList]
      rw [hshape, List.getLast?_concat]
    · simp [replayCallList]
  · intro h
    simp [wfCode, h]
  · intro h1 h2
    simp [wfCode, h2]
    omega
  · intro h1 h2
    simp [wfCode, h2]
    omega
  · simp [hasErrors, List.any_eq_true]

/-- Witness for C5's amended theorem: with a never-raising backend, one
200-status buffered record and the in-repo pipeline-failure override
500, the conclude transmission carries status 500. -/
theorem C5_amended_aggregate_status_witness :
    (replayWorkflowToGalileo (some ()) (fun _ => true) [sampleRecord] "in" "out" 0 500).1.getLast? =
      some (.concludeWf "out" 0 500) := by
  have h := ((C5_amended_aggregate_status (fun _ => true) [sampleRecord]
      "in" "out" 0 500).1 (fun _ => rfl)).1
  rw [h]
  rfl

/-- C3: the router `_should_continue` returns `generate_video` exactly
when the pass flag is set or the iteration count has reached the limit,
and `enhance` exactly otherwise; the fixed edge registered in
`build_workflow` sends `enhance` back to `quality_check`, and the
enhance node increments the iteration count by exactly 1. -/
theorem C3_router_decision :
    (∀ s : PState,
      (shouldContinue s = "generate_video" ↔
        (s.quality_passed = true ∨ s.max_iterations ≤ s.enhancement_iteration)) ∧
      (shouldContinue s = "enhance" ↔
        (s.quality_passed = false ∧ s.enhancement_iteration < s.max_iterations))) ∧
    fixedEdges.lookup "enhance" = some "quality_check" ∧
    (∀ (outPath : String) (applied : List String) (s : PState),
      (enhancement_agent outPath applied s).enhancement_iteration =
        s.enhancement_iteration + 1) :=
  ⟨fun s => ⟨shouldContinue_generate_video_iff s, shouldContinue_enhance_iff s⟩,
   by decide, fun _ _ _ => rfl⟩

/-- Witness for C3 at a concrete state: the router sends the sample
state (pass flag unset, iteration 0 of 3) to `enhance`. -/
theorem C3_router_decision_witness :
    shouldContinue sampleState = "enhance" :=
  ((C3_router_decision.1 sampleState).2).mpr ⟨rfl, by decide⟩

/-- C7: the `_observed` wrapper, on node exception, appends exactly one
500-status StepRecord whose output snapshot is
`ERROR: <kind>: <message>` and re-raises the original exception object
unchanged; on node success it appends exactly one 200-status record and
returns the node's result. -/
theorem C7_observed_wrapper :
    ∀ (node_name : String) (fn : PState → Except Exc PState)
      (s : PState) (buf : List StepRecord),
      (∀ e : Exc, fn s = .error e →
        observed node_name fn s buf =
          (.error e,
           buf ++ [⟨node_name, serializeState s, s!"ERROR: {e.kind}: {e.msg}", 0, 500⟩])) ∧
      (∀ r : PState, fn s = .ok r →
        observed node_name fn s buf =
          (.ok r, buf ++ [⟨node_name, serializeState s, serializeState r, 0, 200⟩])) := by
  intro node_name fn s buf
  constructor
  · intro e h
    simp [observed, h]
  · intro r h
    simp [observed, h]

/-- Witness for C7: a node that raises `ValueError: bad` produces the
single 500 record with the `ERROR:`-prefixed snapshot and the same
exception. -/
theorem C7_observed_wrapper_witness :
    observed "quality_check" (fun _ => .error ⟨"ValueError", "bad"⟩) sampleState [] =
      (.error ⟨"ValueError", "bad"⟩,
       [⟨"quality_check", serializeState sampleState, "ERROR: ValueError: bad", 0, 500⟩]) := by
  have h := (C7_observed_wrapper "quality_check"
      (fun _ => .error ⟨"ValueError", "bad"⟩) sampleState []).1
      ⟨"ValueError", "bad"⟩ rfl
  rw [h]
  rfl

/-- C9: `flush_galileo` returns 0 with no remote call when telemetry is
unavailable, returns 0 (catching the exception, which therefore cannot
escape — the embedding is total) when the backend's upload raises, and
returns the backend-reported count of uploaded workflows on success. -/
theorem C9_flush_galileo :
    ∀ (e : Exc) (results : List Unit) (uploadRes : Except Exc (List Unit)),
      flushGalileo none uploadRes = (0, []) ∧
      flushGalileo (some ()) (.error e) = (0, ["upload_workflows"]) ∧
      flushGalileo (some ()) (.ok results) = (results.length, ["upload_workflows"]) :=
  fun _ _ _ => ⟨rfl, rfl, rfl⟩

/-- C6 counterexample: a replay invocation with the telemetry client
unavailable (`_init_galileo()` returned `None`) returns early at
workflow.py line 124-125 and leaves the calling thread's one-record
buffer intact — the buffer is not empty after this replay invocation,
contradicting the claim's "after every replay invocation". -/
theorem C6_counterexample :
    (replayWorkflowToGalileo none (fun _ => true) [sampleRecord] "in" "out" 0 200).2 =
      [sampleRecord] ∧
    ([sampleRecord] : List StepRecord).length = 1 := ⟨rfl, rfl⟩

/-- C6 as amended: whenever the telemetry client is available, the
buffer is empty after replay regardless of the remote oracle's outcomes
(success or any call raising); when the client is unavailable the replay
returns early, transmitting nothing and leaving the buffer unchanged. -/
theorem C6_amended_buffer_cleared :
    ∀ (oracle : Nat → Bool) (steps : List StepRecord)
      (inp outp : String) (dur : Nat) (override : Int),
      (replayWorkflowToGalileo (some ()) oracle steps inp outp dur override).2 = [] ∧
      (replayWorkflowToGalileo none oracle steps inp outp dur override).2 = steps ∧
      (replayWorkflowToGalileo none oracle steps inp outp dur override).1 = [] :=
  fun _ _ _ _ _ _ => ⟨rfl, rfl, rfl⟩

/-- C10: `run_pipeline` clears the calling thread's step buffer before
invoking the graph (workflow.py line 296), so its entire observable
outcome — result, transmitted events, final buffer, upload count — is
independent of whatever records were left in the buffer by earlier runs;
the leftover hazard is real because a replay with the telemetry client
unavailable leaves the buffer unchanged. -/
theorem C10_leftover_isolation :
    ∀ (nq ne nv : PState → Except Exc PState) (fuel : Nat)
      (client : Option Unit) (oracle : Nat → Bool)
      (uploadRes : Except Exc (List Unit))
      (leftover leftover' : List StepRecord) (s0 : PState)
      (defer_upload raise_on_error : Bool),
      runPipeline nq ne nv fuel client oracle uploadRes leftover s0
          defer_upload raise_on_error =
        runPipeline nq ne nv fuel client oracle uploadRes leftover' s0
          defer_upload raise_on_error ∧
      (replayWorkflowToGalileo none oracle leftover "in" "out" 0 200).2 = leftover :=
  fun _ _ _ _ _ _ _ _ _ _ _ _ => ⟨rfl, rfl⟩

end TestGalileo
